import Mathlib

/-!
Shallow embedding of the EPIC Allure coverage report pipeline
(IN_EPIC_Reports_v7.py, class TestAutomationAnalyzer), the canonical
latest variant of the repository. A CSV row becomes a TestRecord;
missing Epic/Feature/Story cells become Option.none. The float NaN
produced by a 0/0 pass-rate division is modelled as Option.none on the
passRate column: every NaN comparison in the source is False, exactly
as rateGE none c is False here. Pandas groupby sorts its keys
ascending, hence sortedKeys. The blank passRate cell of the TOTAL row
is likewise modelled as none; its blank status is the empty string, as
in the source.
-/

namespace EpicReports

/-- One row of the input CSV: optional Epic/Feature/Story tags and the
four outcome-count columns read by v7. -/
structure TestRecord where
  epic : Option String
  feature : Option String
  story : Option String
  passed : Nat
  failed : Nat
  broken : Nat
  skipped : Nat
deriving DecidableEq, Repr

/-- Sum of one outcome column over a list of records (the agg sum). -/
def sumBy (f : TestRecord → Nat) (l : List TestRecord) : Nat :=
  (l.map f).sum

/-- An aggregated row before the metric columns are added: the Epic key
and the four summed outcome columns. -/
structure BaseRow where
  epic : String
  PASSED : Nat
  FAILED : Nat
  BROKEN : Nat
  SKIPPED : Nat
deriving DecidableEq, Repr

/-- Distinct group keys in ascending order, as pandas groupby produces
them (sort=True is the groupby default). -/
def sortedKeys (l : List String) : List String :=
  List.insertionSort (fun a b : String => a ≤ b) l.dedup

/-- Embedding of groupby(key).agg(sum).reset_index over one bucket:
one row per distinct key, each outcome column summed over the records
carrying that key. -/
def groupAgg (getKey : TestRecord → Option String) (l : List TestRecord) :
    List BaseRow :=
  (sortedKeys (l.filterMap getKey)).map fun k =>
    let g := l.filter fun r => getKey r = some k
    { epic := k
      PASSED := sumBy (fun r => r.passed) g
      FAILED := sumBy (fun r => r.failed) g
      BROKEN := sumBy (fun r => r.broken) g
      SKIPPED := sumBy (fun r => r.skipped) g }

/-- Rows with an Epic value (df[df[Epic].notna()]). -/
def epic_rows (df : List TestRecord) : List TestRecord :=
  df.filter fun r => r.epic ≠ none

/-- Rows with no Epic and no Feature but with a Story. -/
def story_only_rows (df : List TestRecord) : List TestRecord :=
  df.filter fun r => r.epic = none ∧ r.feature = none ∧ r.story ≠ none

/-- Rows with no Epic, no Feature and no Story. -/
def untagged_rows (df : List TestRecord) : List TestRecord :=
  df.filter fun r => r.epic = none ∧ r.feature = none ∧ r.story = none

/-- groupby over the Epic-tagged bucket. -/
def consolidated_epics (df : List TestRecord) : List BaseRow :=
  groupAgg (fun r => r.epic) (epic_rows df)

/-- groupby over the story-only bucket, with the Story column renamed
to Epic and the suffix appended to each key. -/
def consolidated_stories (df : List TestRecord) : List BaseRow :=
  (groupAgg (fun r => r.story) (story_only_rows df)).map fun b =>
    { b with epic := b.epic ++ " - No EPIC Tagged" }

/-- The single collapsed row for the fully untagged bucket. -/
def untagged_summary (df : List TestRecord) : BaseRow :=
  { epic := "Test Cases Not Tagged"
    PASSED := sumBy (fun r => r.passed) (untagged_rows df)
    FAILED := sumBy (fun r => r.failed) (untagged_rows df)
    BROKEN := sumBy (fun r => r.broken) (untagged_rows df)
    SKIPPED := sumBy (fun r => r.skipped) (untagged_rows df) }

/-- pd.concat(consolidated_list): the Epic rows always, the story rows
and the untagged row only when their bucket is non-empty. -/
def consolidated_list (df : List TestRecord) : List BaseRow :=
  consolidated_epics df
    ++ (if story_only_rows df = [] then [] else consolidated_stories df)
    ++ (if untagged_rows df = [] then [] else [untagged_summary df])

/-- Embedding of Series.round(2): scale by 100, round to the nearest
integer, scale back. -/
def round2 (x : ℚ) : ℚ :=
  (round (x * 100) : ℤ) / 100

/-- A float comparison c <= pass_rate where pass_rate may be the NaN
obtained from a 0/0 division: every comparison against NaN is False. -/
def rateGE (pass_rate : Option ℚ) (c : ℚ) : Prop :=
  match pass_rate with
  | none => False
  | some x => c ≤ x

instance : ∀ (r : Option ℚ) (c : ℚ), Decidable (rateGE r c) := fun r c =>
  match r with
  | none => inferInstanceAs (Decidable False)
  | some x => inferInstanceAs (Decidable (c ≤ x))

/-- Embedding of TestAutomationAnalyzer._determine_status. -/
def determine_status (pass_rate : Option ℚ) : String :=
  if rateGE pass_rate 95 then "Acceptable"
  else if rateGE pass_rate 80 then "Maintenance Advised"
  else "Review Required"

/-- A fully consolidated row: key, outcome sums, and the three derived
metric columns. -/
structure SummaryRow where
  epic : String
  PASSED : Nat
  FAILED : Nat
  BROKEN : Nat
  SKIPPED : Nat
  totalTests : Nat
  passRate : Option ℚ
  status : String
deriving DecidableEq, Repr

/-- The metric columns of lines 68 to 70 of v7: totalTests sums the four
outcome columns, passRate is round(100 * PASSED / totalTests, 2) and is
NaN (none) when totalTests = 0, status applies _determine_status. -/
def withMetrics (b : BaseRow) : SummaryRow :=
  let totalTests := b.PASSED + b.FAILED + b.BROKEN + b.SKIPPED
  let passRate : Option ℚ :=
    if totalTests = 0 then none
    else some (round2 ((b.PASSED : ℚ) / (totalTests : ℚ) * 100))
  { epic := b.epic
    PASSED := b.PASSED
    FAILED := b.FAILED
    BROKEN := b.BROKEN
    SKIPPED := b.SKIPPED
    totalTests := totalTests
    passRate := passRate
    status := determine_status passRate }

/-- Tie-break order on the passRate column for the descending sort key:
a comes no later than b when the rate of b is at most the rate of a,
with the NaN rows (none) placed last, as na_position=last does. -/
def rateDescLE : Option ℚ → Option ℚ → Prop
  | some x, some y => y ≤ x
  | some _, none => True
  | none, some _ => False
  | none, none => True

instance : ∀ a b, Decidable (rateDescLE a b) := fun a b =>
  match a, b with
  | some x, some y => inferInstanceAs (Decidable (y ≤ x))
  | some _, none => inferInstanceAs (Decidable True)
  | none, some _ => inferInstanceAs (Decidable False)
  | none, none => inferInstanceAs (Decidable True)

/-- The sort key of sort_values(by=[status, passRate],
ascending=[True, False]): status ascending as strings, then passRate
descending. -/
def rowLE (a b : SummaryRow) : Prop :=
  a.status < b.status ∨ (a.status = b.status ∧ rateDescLE a.passRate b.passRate)

instance : DecidableRel rowLE := fun a b => by
  unfold rowLE; infer_instance

/-- Embedding of TestAutomationAnalyzer._consolidate_epics: bucket the
records, aggregate each bucket, concatenate, add the metric columns and
sort by status then descending passRate. -/
def consolidate_epics (df : List TestRecord) : List SummaryRow :=
  List.insertionSort rowLE ((consolidated_list df).map withMetrics)

/-- The totals row computed by generate_epic_summary_table_plot: each
outcome column and totalTests summed over the consolidated rows; the
passRate cell is blank (none) and the status cell is the empty string. -/
def plot_totals_row (s : List SummaryRow) : SummaryRow :=
  { epic := "TOTAL"
    PASSED := (s.map (fun r => r.PASSED)).sum
    FAILED := (s.map (fun r => r.FAILED)).sum
    BROKEN := (s.map (fun r => r.BROKEN)).sum
    SKIPPED := (s.map (fun r => r.SKIPPED)).sum
    totalTests := (s.map (fun r => r.totalTests)).sum
    passRate := none
    status := "" }

/-- final_df of the table-plot path: pd.concat of the consolidated rows
and the totals row. -/
def plot_final_df (s : List SummaryRow) : List SummaryRow :=
  s ++ [plot_totals_row s]

/-- The totals row computed independently inside
save_epic_summary_to_excel, line for line the same computation. -/
def excel_totals_row (s : List SummaryRow) : SummaryRow :=
  { epic := "TOTAL"
    PASSED := (s.map (fun r => r.PASSED)).sum
    FAILED := (s.map (fun r => r.FAILED)).sum
    BROKEN := (s.map (fun r => r.BROKEN)).sum
    SKIPPED := (s.map (fun r => r.SKIPPED)).sum
    totalTests := (s.map (fun r => r.totalTests)).sum
    passRate := none
    status := "" }

/-- final_df of the Excel path. -/
def excel_final_df (s : List SummaryRow) : List SummaryRow :=
  s ++ [excel_totals_row s]

/-- The column list of the v7 final_df (8 columns). -/
def v7_final_columns : List String :=
  ["Epic", "PASSED", "FAILED", "BROKEN", "SKIPPED", "totalTests", "passRate", "status"]

/-- The display labels configured in generate_epic_summary_table_plot
of v7 (8 labels). -/
def v7_column_labels : List String :=
  ["Epic", "Passed", "Failed", "Broken", "Skipped", "Total Tests", "Pass Rate %", "Status"]

/-- The 9 display labels of the v5 variant, which include Unknown. -/
def v5_column_labels : List String :=
  ["Epic", "Passed", "Failed", "Broken", "Skipped", "Unknown", "Total Tests", "Pass Rate %", "Status"]

/-- Embedding of generate_epic_summary_table_plot viewed as a function
of the final_df column list, the configured labels and the table rows:
the length check at lines 115 to 116 of v7 raises ValueError before the
table is rendered; on success the rendered table is the row data. -/
def generate_epic_summary_table_plot (final_df_columns labels : List String)
    (table : List SummaryRow) : Except String (List SummaryRow) :=
  if final_df_columns.length ≠ labels.length then
    Except.error "Mismatch between DataFrame columns and column labels"
  else
    Except.ok table

/-- Embedding of save_epic_summary_table_plot: it runs the generator
and only then writes the image file; an exception propagates and no
file is written, so the written path exists only in the ok branch. -/
def save_epic_summary_table_plot (final_df_columns labels : List String)
    (table : List SummaryRow) (output_path : String) : Except String String :=
  match generate_epic_summary_table_plot final_df_columns labels table with
  | Except.error e => Except.error e
  | Except.ok _ => Except.ok output_path

/-- A record counts toward some consolidated row exactly when it has an
Epic, or has neither Epic nor Feature; a record with no Epic but a
Feature falls in none of the three buckets of _consolidate_epics. -/
def kept (r : TestRecord) : Prop :=
  r.epic ≠ none ∨ r.feature = none

instance : DecidablePred kept := fun r => by
  unfold kept; infer_instance

/-! Structural lemmas about the embedding. -/

lemma withMetrics_passRate (b : BaseRow) :
    (withMetrics b).passRate
      = if b.PASSED + b.FAILED + b.BROKEN + b.SKIPPED = 0 then none
        else some (round2 ((b.PASSED : ℚ)
            / ((b.PASSED + b.FAILED + b.BROKEN + b.SKIPPED : ℕ) : ℚ) * 100)) := rfl

lemma withMetrics_status (b : BaseRow) :
    (withMetrics b).status = determine_status (withMetrics b).passRate := rfl

lemma withMetrics_totalTests (b : BaseRow) :
    (withMetrics b).totalTests = b.PASSED + b.FAILED + b.BROKEN + b.SKIPPED := rfl

lemma mem_consolidate {df : List TestRecord} {row : SummaryRow}
    (h : row ∈ consolidate_epics df) :
    ∃ b ∈ consolidated_list df, row = withMetrics b := by
  have hm : row ∈ (consolidated_list df).map withMetrics :=
    (List.perm_insertionSort rowLE _).mem_iff.mp h
  obtain ⟨b, hb, he⟩ := List.mem_map.mp hm
  exact ⟨b, hb, he.symm⟩

lemma determine_status_some (r : ℚ) :
    determine_status (some r)
      = if 95 ≤ r then "Acceptable"
        else if 80 ≤ r then "Maintenance Advised"
        else "Review Required" := rfl

/-- Stepwise evaluation of the pipeline on a concrete input: the
bucketing, the metric columns and the sort are each evaluated on their
own, which keeps every kernel computation small. -/
lemma consolidate_eval (df : List TestRecord) (base : List BaseRow)
    (rows : List SummaryRow)
    (h1 : consolidated_list df = base)
    (h2 : base.map withMetrics = rows)
    (h3 : List.insertionSort rowLE rows = rows) :
    consolidate_epics df = rows := by
  unfold consolidate_epics
  rw [h1, h2, h3]

/-- Evaluation of round2 at a concrete rational: exhibit the rounded
integer with the two floor bounds. -/
lemma round2_eval (x : ℚ) (n : ℤ) (h1 : (n : ℚ) ≤ x * 100 + 1 / 2)
    (h2 : x * 100 + 1 / 2 < n + 1) : round2 x = (n : ℚ) / 100 := by
  unfold round2
  have hf : ⌊x * 100 + 1 / 2⌋ = n := Int.floor_eq_iff.mpr ⟨h1, h2⟩
  rw [round_eq, hf]

/-- The record withMetrics builds, written without the let bindings. -/
lemma withMetrics_def (b : BaseRow) :
    withMetrics b
      = { epic := b.epic, PASSED := b.PASSED, FAILED := b.FAILED,
          BROKEN := b.BROKEN, SKIPPED := b.SKIPPED,
          totalTests := b.PASSED + b.FAILED + b.BROKEN + b.SKIPPED,
          passRate := if b.PASSED + b.FAILED + b.BROKEN + b.SKIPPED = 0 then none
            else some (round2 ((b.PASSED : ℚ)
              / ((b.PASSED + b.FAILED + b.BROKEN + b.SKIPPED : ℕ) : ℚ) * 100)),
          status := determine_status
            (if b.PASSED + b.FAILED + b.BROKEN + b.SKIPPED = 0 then none
             else some (round2 ((b.PASSED : ℚ)
               / ((b.PASSED + b.FAILED + b.BROKEN + b.SKIPPED : ℕ) : ℚ) * 100))) } := rfl

/-- Evaluation of withMetrics at a concrete row with a positive total. -/
lemma withMetrics_eval {b : BaseRow} {t : ℕ} {r : ℚ} {u : String}
    (ht : b.PASSED + b.FAILED + b.BROKEN + b.SKIPPED = t) (ht0 : ¬ t = 0)
    (hr : round2 ((b.PASSED : ℚ) / (t : ℚ) * 100) = r)
    (hst : determine_status (some r) = u) :
    withMetrics b
      = { epic := b.epic, PASSED := b.PASSED, FAILED := b.FAILED, BROKEN := b.BROKEN,
          SKIPPED := b.SKIPPED, totalTests := t, passRate := some r, status := u } := by
  subst ht
  subst hr
  subst hst
  rw [withMetrics_def, if_neg ht0]

/-- Evaluation of withMetrics at a concrete row with total zero. -/
lemma withMetrics_eval_zero {b : BaseRow}
    (ht : b.PASSED + b.FAILED + b.BROKEN + b.SKIPPED = 0) :
    withMetrics b
      = { epic := b.epic, PASSED := b.PASSED, FAILED := b.FAILED, BROKEN := b.BROKEN,
          SKIPPED := b.SKIPPED,
          totalTests := b.PASSED + b.FAILED + b.BROKEN + b.SKIPPED,
          passRate := none, status := "Review Required" } := by
  rw [withMetrics_def, if_pos ht]
  rfl

/-- The one-record bucketing: a single Epic-tagged record becomes one
base row carrying its counts. -/
lemma consolidated_list_single (e : String) (p f bk sk : ℕ) :
    consolidated_list [⟨some e, none, none, p, f, bk, sk⟩]
      = [⟨e, p, f, bk, sk⟩] := by
  simp [consolidated_list, consolidated_epics, consolidated_stories, untagged_summary,
    epic_rows, story_only_rows, untagged_rows, groupAgg, sortedKeys, sumBy]

/-- Sorting a one-row table changes nothing. -/
lemma insertionSort_single (row : SummaryRow) :
    List.insertionSort rowLE [row] = [row] := rfl

lemma eval_w1 : consolidate_epics [⟨some "W1", none, none, 19, 1, 0, 0⟩]
    = [⟨"W1", 19, 1, 0, 0, 20, some 95, "Acceptable"⟩] :=
  consolidate_eval _ [⟨"W1", 19, 1, 0, 0⟩] _ (consolidated_list_single _ _ _ _ _)
    (by
      rw [List.map_cons, List.map_nil,
        withMetrics_eval (b := ⟨"W1", 19, 1, 0, 0⟩) (t := 20) (r := 95)
          (u := "Acceptable") (by norm_num) (by norm_num)
          ((round2_eval _ 9500 (by norm_num) (by norm_num)).trans (by norm_num))
          (by rw [determine_status_some, if_pos (show (95 : ℚ) ≤ 95 by norm_num)])])
    (insertionSort_single _)

lemma eval_z1 : consolidate_epics [⟨some "Z1", none, none, 0, 0, 0, 0⟩]
    = [⟨"Z1", 0, 0, 0, 0, 0, none, "Review Required"⟩] :=
  consolidate_eval _ [⟨"Z1", 0, 0, 0, 0⟩] _ (consolidated_list_single _ _ _ _ _)
    (by
      rw [List.map_cons, List.map_nil,
        withMetrics_eval_zero (b := ⟨"Z1", 0, 0, 0, 0⟩) (by norm_num)]
      rfl)
    (insertionSort_single _)

lemma eval_k6 : consolidate_epics [⟨some "K6", none, none, 3, 1, 0, 0⟩]
    = [⟨"K6", 3, 1, 0, 0, 4, some 75, "Review Required"⟩] :=
  consolidate_eval _ [⟨"K6", 3, 1, 0, 0⟩] _ (consolidated_list_single _ _ _ _ _)
    (by
      rw [List.map_cons, List.map_nil,
        withMetrics_eval (b := ⟨"K6", 3, 1, 0, 0⟩) (t := 4) (r := 75)
          (u := "Review Required") (by norm_num) (by norm_num)
          ((round2_eval _ 7500 (by norm_num) (by norm_num)).trans (by norm_num))
          (by rw [determine_status_some, if_neg (show ¬ (95 : ℚ) ≤ 75 by norm_num),
            if_neg (show ¬ (80 : ℚ) ≤ 75 by norm_num)])])
    (insertionSort_single _)

lemma eval_ab :
    consolidate_epics
        [⟨some "A", none, none, 19, 1, 0, 0⟩, ⟨some "B", none, none, 1, 1, 0, 0⟩]
      = [⟨"A", 19, 1, 0, 0, 20, some 95, "Acceptable"⟩,
         ⟨"B", 1, 1, 0, 0, 2, some 50, "Review Required"⟩] :=
  consolidate_eval _ [⟨"A", 19, 1, 0, 0⟩, ⟨"B", 1, 1, 0, 0⟩] _
    (by with_unfolding_all decide)
    (by
      rw [List.map_cons, List.map_cons, List.map_nil,
        withMetrics_eval (b := ⟨"A", 19, 1, 0, 0⟩) (t := 20) (r := 95)
          (u := "Acceptable") (by norm_num) (by norm_num)
          ((round2_eval _ 9500 (by norm_num) (by norm_num)).trans (by norm_num))
          (by rw [determine_status_some, if_pos (by norm_num)]),
        withMetrics_eval (b := ⟨"B", 1, 1, 0, 0⟩) (t := 2) (r := 50)
          (u := "Review Required") (by norm_num) (by norm_num)
          ((round2_eval _ 5000 (by norm_num) (by norm_num)).trans (by norm_num))
          (by rw [determine_status_some, if_neg (show ¬ (95 : ℚ) ≤ 50 by norm_num),
            if_neg (show ¬ (80 : ℚ) ≤ 50 by norm_num)])])
    (by with_unfolding_all decide)


end EpicReports

namespace EpicReports

/-- C1: every consolidated row with a defined passRate carries one of
the three status labels, determined by the 95 and 80 thresholds. -/
theorem c1_status_thresholds (df : List TestRecord) (row : SummaryRow)
    (hrow : row ∈ consolidate_epics df) (r : ℚ) (hr : row.passRate = some r) :
    (row.status = "Acceptable" ∨ row.status = "Maintenance Advised"
        ∨ row.status = "Review Required")
    ∧ (95 ≤ r → row.status = "Acceptable")
    ∧ (80 ≤ r ∧ r < 95 → row.status = "Maintenance Advised")
    ∧ (r < 80 → row.status = "Review Required") := by
  obtain ⟨b, hb, rfl⟩ := mem_consolidate hrow
  have hst : (withMetrics b).status = determine_status (some r) := by
    rw [withMetrics_status, hr]
  rw [hst, determine_status_some]
  by_cases h95 : (95 : ℚ) ≤ r
  · rw [if_pos h95]
    exact ⟨Or.inl rfl, fun _ => rfl,
      fun h => absurd h95 (not_le.mpr h.2),
      fun hlt => absurd h95 (not_le.mpr (hlt.trans_le (by norm_num)))⟩
  · by_cases h80 : (80 : ℚ) ≤ r
    · rw [if_neg h95, if_pos h80]
      exact ⟨Or.inr (Or.inl rfl), fun h => absurd h h95, fun _ => rfl,
        fun hlt => absurd h80 (not_le.mpr hlt)⟩
    · rw [if_neg h95, if_neg h80]
      exact ⟨Or.inr (Or.inr rfl), fun h => absurd h h95,
        fun h => absurd h.1 h80, fun _ => rfl⟩

/-- C1 witness: a 19-of-20 group has passRate exactly 95 and its status
is Acceptable. -/
theorem c1_status_thresholds_witness :
    (⟨"W1", 19, 1, 0, 0, 20, some 95, "Acceptable"⟩ : SummaryRow).status
      = "Acceptable" :=
  (c1_status_thresholds [⟨some "W1", none, none, 19, 1, 0, 0⟩]
    ⟨"W1", 19, 1, 0, 0, 20, some 95, "Acceptable"⟩ (by simp [eval_w1]) 95
    rfl).2.1 (by norm_num)

/-- C3: a consolidated group with zero total tests has an undefined
(NaN, modelled none) passRate and status Review Required, with no
crash anywhere in the pipeline. -/
theorem c3_zero_total (df : List TestRecord) (row : SummaryRow)
    (hrow : row ∈ consolidate_epics df) (h0 : row.totalTests = 0) :
    row.passRate = none ∧ row.status = "Review Required" := by
  obtain ⟨b, hb, rfl⟩ := mem_consolidate hrow
  have ht : b.PASSED + b.FAILED + b.BROKEN + b.SKIPPED = 0 := h0
  have hpr : (withMetrics b).passRate = none := by
    rw [withMetrics_passRate, if_pos ht]
  refine ⟨hpr, ?_⟩
  rw [withMetrics_status, hpr]
  rfl

/-- C3 witness: a single Epic-tagged record with all counts zero yields
one group with totalTests 0, passRate none and status Review Required. -/
theorem c3_zero_total_witness :
    (⟨"Z1", 0, 0, 0, 0, 0, none, "Review Required"⟩ : SummaryRow).passRate = none
    ∧ (⟨"Z1", 0, 0, 0, 0, 0, none, "Review Required"⟩ : SummaryRow).status
        = "Review Required" :=
  c3_zero_total [⟨some "Z1", none, none, 0, 0, 0, 0⟩]
    ⟨"Z1", 0, 0, 0, 0, 0, none, "Review Required"⟩ (by simp [eval_z1]) rfl

/-- C4: the TOTAL row of the rendered table sums each outcome column
and totalTests exactly over the summary rows, carries blank passRate
and status cells, is appended as the last row, and the rows before it
are exactly the summary rows, unchanged. -/
theorem c4_total_row (s : List SummaryRow) :
    (plot_totals_row s).PASSED = (s.map (fun r => r.PASSED)).sum
    ∧ (plot_totals_row s).FAILED = (s.map (fun r => r.FAILED)).sum
    ∧ (plot_totals_row s).BROKEN = (s.map (fun r => r.BROKEN)).sum
    ∧ (plot_totals_row s).SKIPPED = (s.map (fun r => r.SKIPPED)).sum
    ∧ (plot_totals_row s).totalTests = (s.map (fun r => r.totalTests)).sum
    ∧ (plot_totals_row s).passRate = none
    ∧ (plot_totals_row s).status = ""
    ∧ (plot_final_df s).length = s.length + 1
    ∧ (plot_final_df s).take s.length = s
    ∧ (plot_final_df s).getLast? = some (plot_totals_row s) := by
  refine ⟨rfl, rfl, rfl, rfl, rfl, rfl, rfl, by simp [plot_final_df], ?_, ?_⟩
  · show (s ++ [plot_totals_row s]).take s.length = s
    simp
  · show (s ++ [plot_totals_row s]).getLast? = some (plot_totals_row s)
    simp

/-- C7: whenever the final table column count differs from the
configured label count, saving the table image fails with the
configuration ValueError and no output path is produced. -/
theorem c7_label_mismatch (final_df_columns labels : List String)
    (table : List SummaryRow) (output_path : String)
    (h : final_df_columns.length ≠ labels.length) :
    save_epic_summary_table_plot final_df_columns labels table output_path
      = Except.error "Mismatch between DataFrame columns and column labels" := by
  unfold save_epic_summary_table_plot generate_epic_summary_table_plot
  rw [if_pos h]

/-- C7 witness: the 8 v7 final_df columns against the 9 labels of the
v5 variant raise the error before any file is written. -/
theorem c7_label_mismatch_witness :
    save_epic_summary_table_plot v7_final_columns v5_column_labels []
        "IH_Epic_Summary_Table.png"
      = Except.error "Mismatch between DataFrame columns and column labels" :=
  c7_label_mismatch v7_final_columns v5_column_labels [] "IH_Epic_Summary_Table.png"
    (by with_unfolding_all decide)

/-- C8: the final table serialized to the image and the final table
serialized to the spreadsheet are built by two independent but
identical computations from the same consolidated rows, so they agree
cell for cell, including the TOTAL row. -/
theorem c8_projections_agree (df : List TestRecord) :
    plot_final_df (consolidate_epics df) = excel_final_df (consolidate_epics df) := rfl

/-- C9: the grouping-fallback scenario of the spec: one story-only
record and one fully untagged record produce exactly the two expected
rows with passRate 100 / Acceptable and passRate 0 / Review Required. -/
theorem c9_grouping_fallback :
    consolidate_epics
        [⟨none, none, some "S1", 1, 0, 0, 0⟩, ⟨none, none, none, 0, 1, 0, 0⟩]
      = [⟨"S1 - No EPIC Tagged", 1, 0, 0, 0, 1, some 100, "Acceptable"⟩,
         ⟨"Test Cases Not Tagged", 0, 1, 0, 0, 1, some 0, "Review Required"⟩] :=
  consolidate_eval _
    [⟨"S1 - No EPIC Tagged", 1, 0, 0, 0⟩, ⟨"Test Cases Not Tagged", 0, 1, 0, 0⟩] _
    (by with_unfolding_all decide)
    (by
      rw [List.map_cons, List.map_cons, List.map_nil,
        withMetrics_eval (b := ⟨"S1 - No EPIC Tagged", 1, 0, 0, 0⟩) (t := 1) (r := 100)
          (u := "Acceptable") (by norm_num) (by norm_num)
          ((round2_eval _ 10000 (by norm_num) (by norm_num)).trans (by norm_num))
          (by rw [determine_status_some, if_pos (by norm_num)]),
        withMetrics_eval (b := ⟨"Test Cases Not Tagged", 0, 1, 0, 0⟩) (t := 1) (r := 0)
          (u := "Review Required") (by norm_num) (by norm_num)
          ((round2_eval _ 0 (by norm_num) (by norm_num)).trans (by norm_num))
          (by rw [determine_status_some, if_neg (show ¬ (95 : ℚ) ≤ 0 by norm_num),
            if_neg (show ¬ (80 : ℚ) ≤ 0 by norm_num)])])
    (by with_unfolding_all decide)

/-- C10: the status is classified from the passRate rounded to two
decimals, not from the exact ratio: a group at exactly 94999 of 100000
(truly below 95 percent) rounds to 95.0 and is Acceptable, and one at
79999 of 100000 (truly below 80 percent) rounds to 80.0 and is
Maintenance Advised. -/
theorem c10_rounded_classification :
    (∀ b : BaseRow, b.PASSED + b.FAILED + b.BROKEN + b.SKIPPED ≠ 0 →
        (withMetrics b).status
          = determine_status (some (round2 ((b.PASSED : ℚ)
              / ((b.PASSED + b.FAILED + b.BROKEN + b.SKIPPED : ℕ) : ℚ) * 100))))
    ∧ ((94999 : ℚ) / 100000 * 100 < 95
        ∧ consolidate_epics [⟨some "E1", none, none, 94999, 5001, 0, 0⟩]
            = [⟨"E1", 94999, 5001, 0, 0, 100000, some 95, "Acceptable"⟩])
    ∧ ((79999 : ℚ) / 100000 * 100 < 80
        ∧ consolidate_epics [⟨some "E2", none, none, 79999, 20001, 0, 0⟩]
            = [⟨"E2", 79999, 20001, 0, 0, 100000, some 80, "Maintenance Advised"⟩]) := by
  refine ⟨fun b hb => ?_,
    ⟨by norm_num,
      consolidate_eval _ [⟨"E1", 94999, 5001, 0, 0⟩] _ (consolidated_list_single _ _ _ _ _)
        (by
          rw [List.map_cons, List.map_nil,
            withMetrics_eval (b := ⟨"E1", 94999, 5001, 0, 0⟩) (t := 100000) (r := 95)
              (u := "Acceptable") (by norm_num) (by norm_num)
              ((round2_eval _ 9500 (by norm_num) (by norm_num)).trans (by norm_num))
              (by rw [determine_status_some, if_pos (show (95 : ℚ) ≤ 95 by norm_num)])])
        (insertionSort_single _)⟩,
    ⟨by norm_num,
      consolidate_eval _ [⟨"E2", 79999, 20001, 0, 0⟩] _ (consolidated_list_single _ _ _ _ _)
        (by
          rw [List.map_cons, List.map_nil,
            withMetrics_eval (b := ⟨"E2", 79999, 20001, 0, 0⟩) (t := 100000) (r := 80)
              (u := "Maintenance Advised") (by norm_num) (by norm_num)
              ((round2_eval _ 8000 (by norm_num) (by norm_num)).trans (by norm_num))
              (by rw [determine_status_some, if_neg (show ¬ (95 : ℚ) ≤ 80 by norm_num),
                if_pos (show (80 : ℚ) ≤ 80 by norm_num)])])
        (insertionSort_single _)⟩⟩
  rw [withMetrics_status, withMetrics_passRate, if_neg hb]

lemma sumBy_cons (f : TestRecord → ℕ) (r : TestRecord) (t : List TestRecord) :
    sumBy f (r :: t) = f r + sumBy f t := by
  simp [sumBy]

lemma round2_nonneg {x : ℚ} (hx : 0 ≤ x) : 0 ≤ round2 x := by
  unfold round2
  have h1 : (0 : ℤ) ≤ round (x * 100) := by
    rw [round_eq]
    exact Int.floor_nonneg.mpr (by linarith)
  have h2 : (0 : ℚ) ≤ ((round (x * 100) : ℤ) : ℚ) := Int.cast_nonneg.mpr h1
  exact div_nonneg h2 (by norm_num)

lemma round2_le_100 {x : ℚ} (hx : x ≤ 100) : round2 x ≤ 100 := by
  unfold round2
  have h1 : round (x * 100) ≤ round ((10000 : ℚ)) := by
    rw [round_eq, round_eq]
    exact Int.floor_le_floor (by linarith)
  have h2 : round ((10000 : ℚ)) = 10000 := by
    rw [round_eq, Int.floor_eq_iff]
    norm_num
  have h3 : ((round (x * 100) : ℤ) : ℚ) ≤ 10000 := by
    exact_mod_cast h1.trans_eq h2
  rw [div_le_iff (by norm_num : (0 : ℚ) < 100)]
  linarith

/-- C6: every consolidated row satisfies
passed + failed + broken + skipped = totalTests, and whenever
totalTests is positive its passRate is defined and lies in [0, 100]. -/
theorem c6_row_invariants (df : List TestRecord) (row : SummaryRow)
    (hrow : row ∈ consolidate_epics df) :
    row.PASSED + row.FAILED + row.BROKEN + row.SKIPPED = row.totalTests
    ∧ (0 < row.totalTests →
        ∃ r, row.passRate = some r ∧ 0 ≤ r ∧ r ≤ 100) := by
  obtain ⟨b, hb, rfl⟩ := mem_consolidate hrow
  refine ⟨rfl, fun hpos => ?_⟩
  have ht : b.PASSED + b.FAILED + b.BROKEN + b.SKIPPED ≠ 0 := by
    rw [withMetrics_totalTests] at hpos
    omega
  have htpos : 0 < ((b.PASSED + b.FAILED + b.BROKEN + b.SKIPPED : ℕ) : ℚ) := by
    exact_mod_cast Nat.pos_of_ne_zero ht
  refine ⟨round2 ((b.PASSED : ℚ)
      / ((b.PASSED + b.FAILED + b.BROKEN + b.SKIPPED : ℕ) : ℚ) * 100), ?_, ?_, ?_⟩
  · rw [withMetrics_passRate, if_neg ht]
  · apply round2_nonneg
    have h0 : (0 : ℚ) ≤ (b.PASSED : ℚ) := Nat.cast_nonneg _
    exact mul_nonneg (div_nonneg h0 (le_of_lt htpos)) (by norm_num)
  · apply round2_le_100
    have hp : (b.PASSED : ℚ) ≤ ((b.PASSED + b.FAILED + b.BROKEN + b.SKIPPED : ℕ) : ℚ) := by
      have h : b.PASSED ≤ b.PASSED + b.FAILED + b.BROKEN + b.SKIPPED := by omega
      exact_mod_cast h
    have hdiv : (b.PASSED : ℚ)
        / ((b.PASSED + b.FAILED + b.BROKEN + b.SKIPPED : ℕ) : ℚ) ≤ 1 := by
      rw [div_le_one htpos]
      exact hp
    calc (b.PASSED : ℚ) / ((b.PASSED + b.FAILED + b.BROKEN + b.SKIPPED : ℕ) : ℚ) * 100
        ≤ 1 * 100 := mul_le_mul_of_nonneg_right hdiv (by norm_num)
      _ = 100 := by norm_num

/-- C6 witness: a 3-of-4 group has the invariants with passRate 75. -/
theorem c6_row_invariants_witness :
    (⟨"K6", 3, 1, 0, 0, 4, some 75, "Review Required"⟩ : SummaryRow).PASSED
        + (⟨"K6", 3, 1, 0, 0, 4, some 75, "Review Required"⟩ : SummaryRow).FAILED
        + (⟨"K6", 3, 1, 0, 0, 4, some 75, "Review Required"⟩ : SummaryRow).BROKEN
        + (⟨"K6", 3, 1, 0, 0, 4, some 75, "Review Required"⟩ : SummaryRow).SKIPPED
      = (⟨"K6", 3, 1, 0, 0, 4, some 75, "Review Required"⟩ : SummaryRow).totalTests
    ∧ (0 < (⟨"K6", 3, 1, 0, 0, 4, some 75, "Review Required"⟩ : SummaryRow).totalTests →
        ∃ r, (⟨"K6", 3, 1, 0, 0, 4, some 75, "Review Required"⟩ : SummaryRow).passRate
            = some r ∧ 0 ≤ r ∧ r ≤ 100) :=
  c6_row_invariants [⟨some "K6", none, none, 3, 1, 0, 0⟩]
    ⟨"K6", 3, 1, 0, 0, 4, some 75, "Review Required"⟩
    (by simp [eval_k6])

lemma rateDescLE_total (a b : Option ℚ) : rateDescLE a b ∨ rateDescLE b a := by
  cases a with
  | none => cases b with
    | none => exact Or.inl trivial
    | some y => exact Or.inr trivial
  | some x => cases b with
    | none => exact Or.inl trivial
    | some y => exact (le_total y x).imp id id

lemma rateDescLE_trans {a b c : Option ℚ}
    (hab : rateDescLE a b) (hbc : rateDescLE b c) : rateDescLE a c := by
  cases a with
  | none => cases b with
    | none => exact hbc
    | some y => exact absurd hab (by simp [rateDescLE])
  | some x => cases c with
    | none => exact trivial
    | some z =>
      cases b with
      | none => exact absurd hbc (by simp [rateDescLE])
      | some y => exact le_trans (α := ℚ) hbc hab

instance : IsTrans SummaryRow rowLE := by
  constructor
  intro a b c hab hbc
  rcases hab with h1 | ⟨e1, r1⟩ <;> rcases hbc with h2 | ⟨e2, r2⟩
  · exact Or.inl (lt_trans h1 h2)
  · exact Or.inl (lt_of_lt_of_le h1 (le_of_eq e2))
  · exact Or.inl (lt_of_le_of_lt (le_of_eq e1) h2)
  · exact Or.inr ⟨e1.trans e2, rateDescLE_trans r1 r2⟩

instance : IsTotal SummaryRow rowLE := by
  constructor
  intro a b
  rcases lt_trichotomy a.status b.status with h | h | h
  · exact Or.inl (Or.inl h)
  · rcases rateDescLE_total a.passRate b.passRate with hr | hr
    · exact Or.inl (Or.inr ⟨h, hr⟩)
    · exact Or.inr (Or.inr ⟨h.symm, hr⟩)
  · exact Or.inr (Or.inl h)

/-- C5: the consolidated table is sorted ascending by the status label
string, and rows of equal status are sorted descending by passRate. -/
theorem c5_sort_order (df : List TestRecord) (i j : ℕ)
    (hj : j < (consolidate_epics df).length) (hij : i < j) :
    ((consolidate_epics df).get ⟨i, Nat.lt_trans hij hj⟩).status
        ≤ ((consolidate_epics df).get ⟨j, hj⟩).status
    ∧ (((consolidate_epics df).get ⟨i, Nat.lt_trans hij hj⟩).status
          = ((consolidate_epics df).get ⟨j, hj⟩).status →
        ∀ x y,
          ((consolidate_epics df).get ⟨i, Nat.lt_trans hij hj⟩).passRate = some x →
          ((consolidate_epics df).get ⟨j, hj⟩).passRate = some y →
          y ≤ x) := by
  have hs : List.Sorted rowLE (consolidate_epics df) :=
    List.sorted_insertionSort rowLE ((consolidated_list df).map withMetrics)
  have hrel :
      rowLE ((consolidate_epics df).get ⟨i, Nat.lt_trans hij hj⟩)
        ((consolidate_epics df).get ⟨j, hj⟩) :=
    hs.rel_get_of_lt (Fin.mk_lt_mk.mpr hij)
  rcases hrel with h | ⟨he, hr⟩
  · refine ⟨le_of_lt h, fun he2 => ?_⟩
    rw [he2] at h
    exact absurd h (lt_irrefl _)
  · refine ⟨le_of_eq he, fun _ x y hx hy => ?_⟩
    rw [hx, hy] at hr
    exact hr

/-- C5 witness: with one Acceptable group and one Review Required
group, the sorted table places the Acceptable row first. -/
theorem c5_sort_order_witness :
    ((consolidate_epics
        [⟨some "A", none, none, 19, 1, 0, 0⟩, ⟨some "B", none, none, 1, 1, 0, 0⟩]).get
          ⟨0, by simp [eval_ab]⟩).status
      ≤ ((consolidate_epics
        [⟨some "A", none, none, 19, 1, 0, 0⟩, ⟨some "B", none, none, 1, 1, 0, 0⟩]).get
          ⟨1, by simp [eval_ab]⟩).status :=
  (c5_sort_order
    [⟨some "A", none, none, 19, 1, 0, 0⟩, ⟨some "B", none, none, 1, 1, 0, 0⟩]
    0 1 (by simp [eval_ab]) (by norm_num)).1

/-- C10 witness: the general conjunct applied to a concrete 1-of-2
group. -/
theorem c10_rounded_classification_witness :
    (withMetrics ⟨"W10", 1, 1, 0, 0⟩).status
      = determine_status (some (round2
          (((⟨"W10", 1, 1, 0, 0⟩ : BaseRow).PASSED : ℚ)
            / (((⟨"W10", 1, 1, 0, 0⟩ : BaseRow).PASSED
                + (⟨"W10", 1, 1, 0, 0⟩ : BaseRow).FAILED
                + (⟨"W10", 1, 1, 0, 0⟩ : BaseRow).BROKEN
                + (⟨"W10", 1, 1, 0, 0⟩ : BaseRow).SKIPPED : ℕ) : ℚ) * 100))) :=
  c10_rounded_classification.1 ⟨"W10", 1, 1, 0, 0⟩ (by with_unfolding_all decide)

end EpicReports

namespace EpicReports

/-! Conservation of outcome counts through the grouping: lemmas for C2. -/

lemma indicator_sum_zero (c : ℕ) (k0 : String) (K : List String) (hk : k0 ∉ K) :
    (K.map (fun k => if k = k0 then c else 0)).sum = 0 := by
  induction K with
  | nil => rfl
  | cons k ks ih =>
    have h1 : ¬ k = k0 := fun h => hk (by rw [← h]; exact List.mem_cons_self k ks)
    rw [List.map_cons, List.sum_cons, if_neg h1,
      ih (fun h => hk (List.mem_cons_of_mem _ h))]

lemma indicator_sum (c : ℕ) (k0 : String) {K : List String} (hnd : K.Nodup)
    (hk : k0 ∈ K) :
    (K.map (fun k => if k = k0 then c else 0)).sum = c := by
  induction K with
  | nil => exact absurd hk (List.not_mem_nil k0)
  | cons k ks ih =>
    rw [List.nodup_cons] at hnd
    rcases List.mem_cons.mp hk with h | h
    · subst h
      rw [List.map_cons, List.sum_cons, if_pos rfl, indicator_sum_zero c _ _ hnd.1]
      omega
    · have h1 : ¬ k = k0 := fun he => hnd.1 (by rw [he]; exact h)
      rw [List.map_cons, List.sum_cons, if_neg h1, ih hnd.2 h]
      omega

lemma sum_map_add3 (f g h : String → ℕ) (K : List String) :
    (K.map (fun k => f k + g k + h k)).sum
      = (K.map f).sum + (K.map g).sum + (K.map h).sum := by
  induction K with
  | nil => rfl
  | cons k ks ih =>
    simp only [List.map_cons, List.sum_cons, ih]
    omega

lemma sum_map_add2 (f g : String → ℕ) (K : List String) :
    (K.map fun k => f k + g k).sum = (K.map f).sum + (K.map g).sum := by
  induction K with
  | nil => rfl
  | cons k ks ih =>
    simp only [List.map_cons, List.sum_cons, ih]
    omega

lemma sum_over_keys (f : TestRecord → ℕ) (getKey : TestRecord → Option String)
    (l : List TestRecord) (K : List String) (hnd : K.Nodup)
    (hcov : ∀ r ∈ l, ∃ k, getKey r = some k ∧ k ∈ K) :
    (K.map (fun k => sumBy f (l.filter fun r => getKey r = some k))).sum
      = sumBy f l := by
  induction l with
  | nil =>
    simp [sumBy]
  | cons r t ih =>
    obtain ⟨k0, hk0, hk0K⟩ := hcov r (List.mem_cons_self r t)
    have hstep : ∀ k : String,
        sumBy f ((r :: t).filter fun x => getKey x = some k)
          = (if k = k0 then f r else 0)
            + sumBy f (t.filter fun x => getKey x = some k) := by
      intro k
      by_cases h : getKey r = some k
      · have hkk : k = k0 := by
          rw [h] at hk0
          exact Option.some_inj.mp hk0
        rw [List.filter_cons_of_pos (by simp [h]), sumBy_cons, if_pos hkk]
      · have hkk : ¬ k = k0 := fun he => h (by rw [he]; exact hk0)
        rw [List.filter_cons_of_neg (by simp [h]), if_neg hkk, Nat.zero_add]
    calc (K.map fun k => sumBy f ((r :: t).filter fun x => getKey x = some k)).sum
        = (K.map fun k =>
            (if k = k0 then f r else 0)
              + sumBy f (t.filter fun x => getKey x = some k)).sum := by
          simp only [hstep]
      _ = (K.map fun k => if k = k0 then f r else 0).sum
            + (K.map fun k => sumBy f (t.filter fun x => getKey x = some k)).sum :=
          sum_map_add2 (fun k => if k = k0 then f r else 0)
            (fun k => sumBy f (t.filter fun x => getKey x = some k)) K
      _ = f r + sumBy f t := by
          rw [indicator_sum (f r) k0 hnd hk0K,
            ih (fun x hx => hcov x (List.mem_cons_of_mem r hx))]
      _ = sumBy f (r :: t) := (sumBy_cons f r t).symm

lemma sortedKeys_nodup (l : List String) : (sortedKeys l).Nodup :=
  ((List.perm_insertionSort _ _).nodup_iff).mpr (List.nodup_dedup l)

lemma mem_sortedKeys {k : String} {l : List String} :
    k ∈ sortedKeys l ↔ k ∈ l := by
  unfold sortedKeys
  rw [(List.perm_insertionSort _ _).mem_iff, List.mem_dedup]

lemma groupAgg_sum (f : TestRecord → ℕ) (projB : BaseRow → ℕ)
    (hproj : ∀ (k : String) (g : List TestRecord), projB
        { epic := k
          PASSED := sumBy (fun r => r.passed) g
          FAILED := sumBy (fun r => r.failed) g
          BROKEN := sumBy (fun r => r.broken) g
          SKIPPED := sumBy (fun r => r.skipped) g } = sumBy f g)
    (getKey : TestRecord → Option String) (l : List TestRecord)
    (hl : ∀ r ∈ l, getKey r ≠ none) :
    ((groupAgg getKey l).map projB).sum = sumBy f l := by
  unfold groupAgg
  rw [List.map_map]
  have hc : (projB ∘ fun k =>
      let g := l.filter fun r => getKey r = some k
      ({ epic := k
         PASSED := sumBy (fun r => r.passed) g
         FAILED := sumBy (fun r => r.failed) g
         BROKEN := sumBy (fun r => r.broken) g
         SKIPPED := sumBy (fun r => r.skipped) g } : BaseRow))
      = fun k => sumBy f (l.filter fun r => getKey r = some k) := by
    funext k
    exact hproj k _
  rw [hc]
  apply sum_over_keys f getKey l _ (sortedKeys_nodup _)
  intro r hr
  cases hgk : getKey r with
  | none => exact absurd hgk (hl r hr)
  | some k =>
    exact ⟨k, rfl, mem_sortedKeys.mpr (List.mem_filterMap.mpr ⟨r, hr, hgk⟩)⟩

lemma sumBy_filter (f : TestRecord → ℕ) (p : TestRecord → Bool)
    (l : List TestRecord) :
    sumBy f (l.filter p) = (l.map (fun r => if p r then f r else 0)).sum := by
  induction l with
  | nil => rfl
  | cons r t ih =>
    by_cases h : p r
    · rw [List.filter_cons_of_pos h, sumBy_cons, ih, List.map_cons,
        List.sum_cons, if_pos h]
    · rw [List.filter_cons_of_neg (by simpa using h), ih, List.map_cons,
        List.sum_cons, if_neg h, Nat.zero_add]

lemma sum_three_buckets (f : TestRecord → ℕ) (l : List TestRecord) :
    sumBy f (epic_rows l) + sumBy f (story_only_rows l) + sumBy f (untagged_rows l)
      = sumBy f (l.filter fun r => kept r) := by
  unfold epic_rows story_only_rows untagged_rows
  rw [sumBy_filter, sumBy_filter, sumBy_filter, sumBy_filter]
  rw [show ∀ K : List TestRecord, ∀ f1 f2 f3 : TestRecord → ℕ,
      (K.map f1).sum + (K.map f2).sum + (K.map f3).sum
        = (K.map (fun r => f1 r + f2 r + f3 r)).sum from ?_]
  · apply congrArg
    apply List.map_congr_left
    intro r hr
    by_cases h1 : r.epic = none <;> by_cases h2 : r.feature = none <;>
      by_cases h3 : r.story = none <;> simp [h1, h2, h3, kept]
  · intro K f1 f2 f3
    induction K with
    | nil => rfl
    | cons k ks ih =>
      simp only [List.map_cons, List.sum_cons, ih]
      omega

lemma consolidate_sum (f : TestRecord → ℕ) (proj : SummaryRow → ℕ)
    (projB : BaseRow → ℕ)
    (hPB : ∀ b, proj (withMetrics b) = projB b)
    (hproj : ∀ (k : String) (g : List TestRecord), projB
        { epic := k
          PASSED := sumBy (fun r => r.passed) g
          FAILED := sumBy (fun r => r.failed) g
          BROKEN := sumBy (fun r => r.broken) g
          SKIPPED := sumBy (fun r => r.skipped) g } = sumBy f g)
    (hren : ∀ b : BaseRow, projB { b with epic := b.epic ++ " - No EPIC Tagged" } = projB b)
    (df : List TestRecord) :
    ((consolidate_epics df).map proj).sum
      = sumBy f (df.filter fun r => kept r) := by
  have hperm : List.Perm ((consolidate_epics df).map proj)
      (((consolidated_list df).map withMetrics).map proj) :=
    (List.perm_insertionSort rowLE _).map proj
  rw [hperm.sum_eq, List.map_map]
  have hPB2 : (proj ∘ withMetrics) = projB := funext hPB
  rw [hPB2]
  unfold consolidated_list
  rw [List.map_append, List.map_append, List.sum_append, List.sum_append]
  have hE : ((consolidated_epics df).map projB).sum = sumBy f (epic_rows df) := by
    unfold consolidated_epics
    apply groupAgg_sum f projB hproj
    intro r hr
    simpa using (List.mem_filter.mp hr).2
  have hS : ((if story_only_rows df = [] then [] else consolidated_stories df).map projB).sum
      = sumBy f (story_only_rows df) := by
    by_cases h : story_only_rows df = []
    · rw [if_pos h, h]
      rfl
    · rw [if_neg h]
      unfold consolidated_stories
      rw [List.map_map]
      have hc : (projB ∘ fun b => { b with epic := b.epic ++ " - No EPIC Tagged" }) = projB :=
        funext hren
      rw [hc]
      apply groupAgg_sum f projB hproj
      intro r hr
      have h2 := (List.mem_filter.mp hr).2
      simp only [decide_eq_true_eq] at h2
      exact h2.2.2
  have hU : ((if untagged_rows df = [] then [] else [untagged_summary df]).map projB).sum
      = sumBy f (untagged_rows df) := by
    by_cases h : untagged_rows df = []
    · rw [if_pos h, h]
      rfl
    · rw [if_neg h]
      show projB (untagged_summary df) + 0 = sumBy f (untagged_rows df)
      rw [Nat.add_zero]
      unfold untagged_summary
      exact hproj _ _
  rw [hE, hS, hU]
  exact sum_three_buckets f df

/-- C2 counterexample: a record with no Epic but a non-empty Feature
matches none of the three buckets, so it is dropped: the consolidated
table is empty although the record carries one passed test. The claim
that every input record contributes to exactly one row is false. -/
theorem c2_counterexample :
    consolidate_epics [⟨none, some "F0", none, 1, 0, 0, 0⟩] = []
    ∧ sumBy (fun r => r.passed) [⟨none, some "F0", none, 1, 0, 0, 0⟩] = 1 :=
  ⟨consolidate_eval _ [] [] (by with_unfolding_all decide) rfl rfl,
   by with_unfolding_all decide⟩

/-- C2 (amended): outcome counts are conserved between the consolidated
rows and the records that fall in one of the three buckets, namely
those with an Epic or with no Feature; a record with no Epic but a
Feature contributes to no row. -/
theorem c2_amended_conservation (df : List TestRecord) :
    ((consolidate_epics df).map (fun r => r.PASSED)).sum
        = sumBy (fun r => r.passed) (df.filter fun r => kept r)
    ∧ ((consolidate_epics df).map (fun r => r.FAILED)).sum
        = sumBy (fun r => r.failed) (df.filter fun r => kept r)
    ∧ ((consolidate_epics df).map (fun r => r.BROKEN)).sum
        = sumBy (fun r => r.broken) (df.filter fun r => kept r)
    ∧ ((consolidate_epics df).map (fun r => r.SKIPPED)).sum
        = sumBy (fun r => r.skipped) (df.filter fun r => kept r) :=
  ⟨consolidate_sum _ _ (fun b => b.PASSED) (fun _ => rfl) (fun _ _ => rfl) (fun _ => rfl) df,
   consolidate_sum _ _ (fun b => b.FAILED) (fun _ => rfl) (fun _ _ => rfl) (fun _ => rfl) df,
   consolidate_sum _ _ (fun b => b.BROKEN) (fun _ => rfl) (fun _ _ => rfl) (fun _ => rfl) df,
   consolidate_sum _ _ (fun b => b.SKIPPED) (fun _ => rfl) (fun _ _ => rfl) (fun _ => rfl) df⟩

end EpicReports
